import Mathlib

/-!
Shallow embedding of the slot-booking core of the Thrive scheduling backend
(server.js): the time normalizer `convertTo24Hour`, the calendar/day-of-week
arithmetic behind JavaScript `Date#getDay`, the MongoDB-backed slot store
(`addBookedSlot`, `removeBookedSlot`, `isSlotBooked` over a collection with a
unique index on (date, time)), the availability endpoints
(`/api/check-availability`, `/api/available-slots`) and the booking
orchestrator (`/api/schedule-discovery-call`).

JavaScript strings are modelled as `List Char`; the JS string operations used
by the source (`includes`, `split`, `padStart`, `parseInt`, number→string) are
embedded below.
-/

namespace Thrive

/-- JavaScript string, modelled as a list of characters. -/
abbrev JStr := List Char

/-- JS `s.includes(pat)`: `pat` occurs as a contiguous substring of `s`. -/
def containsStr : JStr → JStr → Bool
  | [], pat => pat.isEmpty
  | c :: t, pat => pat.isPrefixOf (c :: t) || containsStr t pat

/-- JS `s.split(sep)` for a single-character separator. -/
def splitOnChar (sep : Char) : JStr → List JStr
  | [] => [[]]
  | c :: t =>
    match splitOnChar sep t with
    | [] => [[c]]
    | y :: ys => if c = sep then [] :: y :: ys else (c :: y) :: ys

/-- Decimal rendering of a natural number, as JS `n.toString()`. -/
def natToJStr (n : Nat) : JStr := (Nat.repr n).data

/-- JS `s.padStart(2, c)`. -/
def padStart2 (c : Char) (s : JStr) : JStr :=
  if 2 ≤ s.length then s else List.replicate (2 - s.length) c ++ s

/-- Leading decimal digits of a string. -/
def takeDigits (s : JStr) : JStr := s.takeWhile (fun c => c.isDigit)

/-- Numeric value of a digit string. -/
def natOfDigits (s : JStr) : Nat := s.foldl (fun a c => 10 * a + (c.toNat - 48)) 0

/-- JS `parseInt(s, 10)` on the inputs reached by this code: `none` models the
`NaN` result when no leading digit is present. -/
def jsParseInt (s : JStr) : Option Nat :=
  let d := takeDigits s
  if d.isEmpty then none else some (natOfDigits d)

def strAM : JStr := ['A', 'M']

def strPM : JStr := ['P', 'M']

/-- The time normalizer `convertTo24Hour` from server.js: an input without an
AM/PM marker is returned unchanged; otherwise `H:MM AM|PM` is parsed, hour
`12` is first rewritten to `00`, 12 is added to the hour for PM, and the hour
is left-padded to two digits. -/
def convertTo24Hour (timeInput : JStr) : JStr :=
  if !containsStr timeInput strAM && !containsStr timeInput strPM then
    timeInput
  else
    let parts := splitOnChar ' ' timeInput
    let time := parts.headD []
    let modifier := (parts.drop 1).headD []
    let hm := splitOnChar ':' time
    let hours0 := hm.headD []
    let minutes := (hm.drop 1).headD []
    let hours1 := if hours0 = ['1', '2'] then ['0', '0'] else hours0
    let hoursStr :=
      if modifier = strPM then
        match jsParseInt hours1 with
        | some n => natToJStr (n + 12)
        | none => ['N', 'a', 'N']
      else hours1
    padStart2 '0' hoursStr ++ (':' :: minutes)

/-- Parse a normalized `HH:MM` string back into numeric hour/minute, as JS
`new Date(dateTtime).getHours()` observes it; `none` models an invalid date
(whose `getHours()` is `NaN`, making every numeric comparison false). -/
def parseHM (s : JStr) : Option (Nat × Nat) :=
  match splitOnChar ':' s with
  | [h, m] =>
    if h ≠ [] && m ≠ [] && h.all (fun c => c.isDigit) && m.all (fun c => c.isDigit) then
      let hv := natOfDigits h
      let mv := natOfDigits m
      if hv < 24 && mv < 60 then some (hv, mv) else none
    else none
  | _ => none

/-- A calendar date (`YYYY-MM-DD`), structured. -/
structure CivDate where
  year : Nat
  month : Nat
  day : Nat
deriving DecidableEq

/-- Gregorian leap-year rule. -/
def isLeap (y : Nat) : Bool := y % 4 == 0 && (y % 100 != 0 || y % 400 == 0)

/-- Days in the year strictly before month `m`. -/
def daysBeforeMonth (leap : Bool) (m : Nat) : Nat :=
  (match m with
   | 1 => 0 | 2 => 31 | 3 => 59 | 4 => 90 | 5 => 120 | 6 => 151
   | 7 => 181 | 8 => 212 | 9 => 243 | 10 => 273 | 11 => 304 | _ => 334)
  + (if leap && 3 ≤ m then 1 else 0)

/-- Rata-die day number of a date (0001-01-01 ↦ 1), proleptic Gregorian. -/
def rataDie (d : CivDate) : Nat :=
  (d.year - 1) * 365 + (d.year - 1) / 4 + (d.year - 1) / 400
    - (d.year - 1) / 100 + daysBeforeMonth (isLeap d.year) d.month + d.day

/-- JS `Date#getDay` on midnight of the date: 0 = Sunday, …, 6 = Saturday.
Rata-die day 1 (0001-01-01) was a Monday, so the residue mod 7 matches. -/
def jsGetDay (d : CivDate) : Nat := rataDie d % 7

/-- Timestamp (seconds on one fixed timeline) of a date at `h:m`, as built by
`new Date(dateThh:mm:00)` in server.js. -/
def slotInstant (d : CivDate) (h m : Nat) : Nat :=
  rataDie d * 86400 + h * 3600 + m * 60

/-- The slot-time rendering used by the `/api/available-slots` loop:
`${hour.toString().padStart(2,'0')}:${minute.toString().padStart(2,'0')}`. -/
def timeStr (h m : Nat) : JStr :=
  padStart2 '0' (natToJStr h) ++ (':' :: padStart2 '0' (natToJStr m))

/-- The standard 12-hour rendering `H:MM AM|PM` of the time `h:m` (hour
unpadded, `12 AM` for midnight, `12 PM` for noon). -/
def to12Str (h m : Nat) : JStr :=
  (natToJStr (if h % 12 = 0 then 12 else h % 12) ++ (':' :: padStart2 '0' (natToJStr m)))
    ++ (' ' :: (if h < 12 then strAM else strPM))

/-- The `bookedSlots` MongoDB collection: a bag of (date, time) records.
`createdAt`/`updatedAt` bookkeeping carries no behaviour and is omitted. -/
structure SlotStore where
  booked : List (CivDate × JStr)
deriving DecidableEq

def emptyStore : SlotStore := ⟨[]⟩

/-- The single error the unique index on (date, time) can raise on insert. -/
inductive SlotError where
  | slotAlreadyBooked
deriving DecidableEq

/-- Embedding of `insertOne` on the collection, whose unique index on `{date, time}`
(created in `connectToMongoDB`) rejects a record whose (date, time) pair is
already present. -/
def insertBookedSlot (s : SlotStore) (d : CivDate) (t : JStr) :
    Except SlotError SlotStore :=
  if s.booked.contains (d, t) then .error .slotAlreadyBooked
  else .ok ⟨(d, t) :: s.booked⟩

/-- Function `addBookedSlot(date, time)` from server.js: the insert runs inside
`try { ... } catch (error) { console.error(...) }`, so a duplicate-key
rejection is logged and swallowed, leaving the store unchanged. -/
def addBookedSlot (s : SlotStore) (d : CivDate) (t : JStr) : SlotStore :=
  match insertBookedSlot s d t with
  | .ok s' => s'
  | .error _ => s

/-- What a caller of `addBookedSlot` observes: the promise always resolves
with `undefined` (second component `none`), whether the insert succeeded or
its duplicate-key error was caught. -/
def addBookedSlotResult (s : SlotStore) (d : CivDate) (t : JStr) :
    SlotStore × Option SlotError :=
  match insertBookedSlot s d t with
  | .ok s' => (s', none)
  | .error _ => (s, none)

/-- MongoDB `deleteOne`: remove the first record matching the key. -/
def removeFirst (k : CivDate × JStr) : List (CivDate × JStr) → List (CivDate × JStr)
  | [] => []
  | x :: xs => if x = k then xs else x :: removeFirst k xs

/-- Function `removeBookedSlot(date, time)` from server.js (`deleteOne` on the pair). -/
def removeBookedSlot (s : SlotStore) (d : CivDate) (t : JStr) : SlotStore :=
  ⟨removeFirst (d, t) s.booked⟩

/-- Function `isSlotBooked(date, time)` from server.js (`findOne` on the pair). -/
def isSlotBooked (s : SlotStore) (d : CivDate) (t : JStr) : Bool :=
  s.booked.contains (d, t)

/-- Function `getBookedSlots(date)` from server.js: the times of all records for the
date. -/
def getBookedSlots (s : SlotStore) (d : CivDate) : List JStr :=
  (s.booked.filter (fun r => r.1 = d)).map (fun r => r.2)

def msgWeekday : JStr :=
  "Meetings can only be scheduled on weekdays (Monday-Friday)".data

def msgBusinessHours : JStr :=
  "Meetings can only be scheduled between 9:00 AM and 6:00 PM (Noida time)".data

def msgPast : JStr := "Cannot schedule meetings in the past".data

def msgBooked : JStr := "This time slot is already booked".data

def msgAvailable : JStr := "Time slot is available".data

/-- Result of `GET /api/check-availability` (the fields the claims are
about). -/
structure AvailResult where
  available : Bool
  message : JStr
deriving DecidableEq

/-- Endpoint `GET /api/check-availability` from server.js. The hour used for the
business-hours and past-time checks is `getHours()` of
`new Date(dateTtime24h:00)`; on an unparseable time that value is `NaN` and
both numeric comparisons are false, which the `Option`-valued `parseHM`
models by `none`. -/
def checkAvailability (store : SlotStore) (date : CivDate) (time : JStr)
    (now : Nat) : AvailResult :=
  let time24h := convertTo24Hour time
  let hm := parseHM time24h
  let dayOfWeek := jsGetDay date
  let isWeekday := 1 ≤ dayOfWeek && dayOfWeek ≤ 5
  let isBusinessHours :=
    match hm with
    | some (h, _) => 9 ≤ h && h < 18
    | none => false
  let isFuture :=
    match hm with
    | some (h, m) => now < slotInstant date h m
    | none => false
  let isBooked := isSlotBooked store date time24h
  let available := isWeekday && isBusinessHours && isFuture && !isBooked
  let message :=
    if !isWeekday then msgWeekday
    else if !isBusinessHours then msgBusinessHours
    else if !isFuture then msgPast
    else if isBooked then msgBooked
    else msgAvailable
  ⟨available, message⟩

def reasonPast : JStr := "Past time slot".data

def reasonBooked : JStr := "Already booked".data

def reasonAvailable : JStr := "Available".data

/-- One element of the `slots` array of `GET /api/available-slots`.
`displayTime` (locale-formatted 12-hour text) carries no logic the claims
touch and is omitted. -/
structure TimeSlot where
  time : JStr
  available : Bool
  reason : JStr
deriving DecidableEq

/-- Body of the slot-generation loop of `GET /api/available-slots`:
`isPast = slotDateTime <= now`, `isBooked = isSlotBooked(date, slotTime)`,
`available = !isPast && !isBooked`, reason precedence past > booked >
available. -/
def buildSlot (store : SlotStore) (date : CivDate) (now : Nat) (h m : Nat) :
    TimeSlot :=
  let slotTime := timeStr h m
  let isPast : Bool := slotInstant date h m ≤ now
  let isBooked := isSlotBooked store date slotTime
  { time := slotTime
    available := !isPast && !isBooked
    reason :=
      if isPast then reasonPast
      else if isBooked then reasonBooked
      else reasonAvailable }

/-- The double loop `for (hour = 9; hour < 18; hour++) for (minute = 0;
minute < 60; minute += 30)`. -/
def slotGrid : List (Nat × Nat) :=
  ((List.range' 9 9).map (fun h => [(h, 0), (h, 30)])).flatten

/-- Response of `GET /api/available-slots`: the weekend branch carries
`available: false` and an empty `slots` array; the weekday branch carries the
generated slots and the counts (and no `available` field, hence `Option`). -/
structure SlotsResponse where
  available : Option Bool
  message : Option JStr
  slots : List TimeSlot
  totalSlots : Option Nat
  availableSlots : Option Nat
deriving DecidableEq

/-- Endpoint `GET /api/available-slots` from server.js. -/
def availableSlotsEndpoint (store : SlotStore) (date : CivDate) (now : Nat) :
    SlotsResponse :=
  if jsGetDay date = 0 || jsGetDay date = 6 then
    { available := some false
      message := some msgWeekday
      slots := []
      totalSlots := none
      availableSlots := none }
  else
    let timeSlots := slotGrid.map (fun p => buildSlot store date now p.1 p.2)
    { available := none
      message := none
      slots := timeSlots
      totalSlots := some timeSlots.length
      availableSlots := some (timeSlots.filter (fun s => s.available)).length }

/-- Outcome of the external meeting-provider collaborator
(`createTeamsMeeting`), whose internals are out of scope. -/
inductive MeetingOutcome where
  | success
  | failure
deriving DecidableEq

/-- The responses `POST /api/schedule-discovery-call` can produce on the
paths the claims are about. -/
inductive ScheduleResponse where
  | missingFields
  | notAWeekday
  | outsideBusinessHours
  | meetingCreationFailed
  | booked
deriving DecidableEq

/-- HTTP status attached to each response in server.js. -/
def ScheduleResponse.httpStatus : ScheduleResponse → Nat
  | .missingFields => 400
  | .notAWeekday => 400
  | .outsideBusinessHours => 400
  | .meetingCreationFailed => 500
  | .booked => 200

/-- Endpoint `POST /api/schedule-discovery-call` from server.js, with the external
meeting creation abstracted by `outcome`. Returns the response, the resulting
slot store, and whether meeting creation was attempted. The handler checks
required fields, then the weekday (`getDay` of the date-only instant), then
the hour (`hour < 9 || hour >= 18`, both comparisons false on `NaN`), then
creates the meeting, and only on success calls `addBookedSlot`; a creation
failure returns 500 inside the catch without touching the store. It never
consults `isSlotBooked`. -/
def scheduleDiscoveryCall (store : SlotStore) (fieldsPresent : Bool)
    (date : CivDate) (time : JStr) (outcome : MeetingOutcome) :
    ScheduleResponse × SlotStore × Bool :=
  if !fieldsPresent then (.missingFields, store, false)
  else
    let time24h := convertTo24Hour time
    let hm := parseHM time24h
    let dayOfWeek := jsGetDay date
    if dayOfWeek = 0 || dayOfWeek = 6 then (.notAWeekday, store, false)
    else if
        (match hm with
         | some (h, _) => h < 9 || 18 ≤ h
         | none => false) then
      (.outsideBusinessHours, store, false)
    else
      match outcome with
      | .failure => (.meetingCreationFailed, store, true)
      | .success => (.booked, addBookedSlot store date time24h, true)

/-- A reserve or release operation on the slot store. -/
inductive SlotOp where
  | reserve (d : CivDate) (t : JStr)
  | release (d : CivDate) (t : JStr)

def applyOp (s : SlotStore) : SlotOp → SlotStore
  | .reserve d t => addBookedSlot s d t
  | .release d t => removeBookedSlot s d t

/-- Run a sequence of reserve/release operations. -/
def runOps (s : SlotStore) (ops : List SlotOp) : SlotStore :=
  ops.foldl applyOp s

/-! ### Shared sample inputs -/

/-- Monday 2025-09-08. -/
def dMon : CivDate := ⟨2025, 9, 8⟩

/-- Tuesday 2025-09-09. -/
def dTue : CivDate := ⟨2025, 9, 9⟩

/-- Saturday 2025-09-06. -/
def dSat : CivDate := ⟨2025, 9, 6⟩

/-- Sunday 2025-09-07. -/
def dSun : CivDate := ⟨2025, 9, 7⟩

/-- Monday 2025-12-01. -/
def dMonDec : CivDate := ⟨2025, 12, 1⟩

def tTen : JStr := "10:00".data

def tTwoPM : JStr := "2:00 PM".data

/-- The eighteen slot-start times 09:00, 09:30, …, 17:30. -/
def slotGridTimes : List JStr :=
  ["09:00".data, "09:30".data, "10:00".data, "10:30".data, "11:00".data,
   "11:30".data, "12:00".data, "12:30".data, "13:00".data, "13:30".data,
   "14:00".data, "14:30".data, "15:00".data, "15:30".data, "16:00".data,
   "16:30".data, "17:00".data, "17:30".data]

/-- A store in which the Monday 2025-12-01 10:00 slot is already booked. -/
def storeBookedMonDec : SlotStore := ⟨[(dMonDec, tTen)]⟩

/-! ### Helper lemmas -/

theorem mem_removeFirst_of_ne {k a : CivDate × JStr} (h : a ≠ k) :
    ∀ l : List (CivDate × JStr), (a ∈ removeFirst k l ↔ a ∈ l) := by
  intro l
  induction l with
  | nil => simp [removeFirst]
  | cons x xs ih =>
    by_cases hx : x = k
    · subst hx
      simp [removeFirst, ih, h]
    · simp [removeFirst, hx, ih]

theorem count_removeFirst_le (k a : CivDate × JStr) :
    ∀ l : List (CivDate × JStr), (removeFirst k l).count a ≤ l.count a := by
  intro l
  induction l with
  | nil => simp [removeFirst]
  | cons x xs ih =>
    by_cases hx : x = k
    · subst hx
      simp [removeFirst, List.count_cons]
    · simp [removeFirst, hx, List.count_cons]
      omega

theorem addBookedSlot_booked_eq (s : SlotStore) (d : CivDate) (t : JStr) :
    (addBookedSlot s d t).booked =
      if (d, t) ∈ s.booked then s.booked else (d, t) :: s.booked := by
  unfold addBookedSlot insertBookedSlot
  by_cases hc : (d, t) ∈ s.booked <;> simp [hc]

theorem count_le_one_addBookedSlot {s : SlotStore} (d : CivDate) (t : JStr)
    (h : ∀ k, s.booked.count k ≤ 1) :
    ∀ k, (addBookedSlot s d t).booked.count k ≤ 1 := by
  intro k
  rw [addBookedSlot_booked_eq]
  by_cases hc : (d, t) ∈ s.booked
  · simp [hc]
    exact h k
  · simp [hc, List.count_cons]
    by_cases hk : (d, t) = k
    · have h0 : s.booked.count k = 0 := by
        rw [← hk]
        exact List.count_eq_zero.mpr hc
      simp [h0, hk]
    · simp [hk]
      exact h k

/-! ### C1: check-availability -/

set_option maxHeartbeats 1600000 in
/-- C1: for an availability query whose normalized time parses as `h:m`, the
returned `available` flag is true iff the date is a weekday (`getDay` in
1..5), `9 ≤ h < 18`, the composed instant is strictly later than `now`, and
the (date, normalized time) pair is not booked; the single message follows
the precedence weekday > business-hours > past > booked > available. -/
theorem checkAvailability_spec (store : SlotStore) (date : CivDate)
    (time : JStr) (now h m : Nat)
    (hp : parseHM (convertTo24Hour time) = some (h, m)) :
    ((checkAvailability store date time now).available = true ↔
      ((1 ≤ jsGetDay date ∧ jsGetDay date ≤ 5) ∧ (9 ≤ h ∧ h < 18) ∧
        now < slotInstant date h m ∧
        isSlotBooked store date (convertTo24Hour time) = false)) ∧
    (checkAvailability store date time now).message =
      (if ¬ (1 ≤ jsGetDay date ∧ jsGetDay date ≤ 5) then msgWeekday
       else if ¬ (9 ≤ h ∧ h < 18) then msgBusinessHours
       else if ¬ now < slotInstant date h m then msgPast
       else if isSlotBooked store date (convertTo24Hour time) = true then
         msgBooked
       else msgAvailable) := by
  by_cases h1 : 1 ≤ jsGetDay date <;>
    by_cases h2 : jsGetDay date ≤ 5 <;>
      by_cases h3 : 9 ≤ h <;>
        by_cases h4 : h < 18 <;>
          by_cases h5 : now < slotInstant date h m <;>
            by_cases hb : isSlotBooked store date (convertTo24Hour time) = true <;>
              simp [checkAvailability, hp, h1, h2, h3, h4, h5, hb]

/-- Witness for C1 at a concrete input: on Tuesday 2025-09-09 at `2:00 PM`
(normalized 14:00), with an empty store and `now = 0`, the slot is
available. -/
theorem checkAvailability_spec_witness :
    (checkAvailability emptyStore dTue tTwoPM 0).available = true :=
  (checkAvailability_spec emptyStore dTue tTwoPM 0 14 0 (by decide)).1.mpr
    ⟨⟨by decide, by decide⟩, ⟨by decide, by decide⟩, by decide, by decide⟩

/-! ### C2: reserve then re-reserve -/

/-- C2 counterexample: after reserving Tuesday 2025-09-09 10:00, a second
`addBookedSlot` for the same pair does not fail with `SlotAlreadyBooked`:
the duplicate-key error is caught inside the function, which resolves with
`undefined` (no error) exactly as on success. -/
theorem addBookedSlot_rebook_no_error :
    ¬ ((addBookedSlotResult (addBookedSlot emptyStore dTue tTen) dTue tTen).2 =
        some SlotError.slotAlreadyBooked) := by decide

/-- C2 amended: after `addBookedSlot(date, time)`, `isSlotBooked(date, time)`
is true, and on a subsequent reserve of the same pair the underlying insert
is rejected by the unique index (`SlotAlreadyBooked`), but `addBookedSlot`
catches that error, leaves the store unchanged, and reports no failure to
its caller. -/
theorem addBookedSlot_rebook_spec (s : SlotStore) (d : CivDate) (t : JStr) :
    isSlotBooked (addBookedSlot s d t) d t = true ∧
    insertBookedSlot (addBookedSlot s d t) d t =
      Except.error SlotError.slotAlreadyBooked ∧
    addBookedSlot (addBookedSlot s d t) d t = addBookedSlot s d t ∧
    (addBookedSlotResult (addBookedSlot s d t) d t).2 = none := by
  have hmem : (d, t) ∈ (addBookedSlot s d t).booked := by
    rw [addBookedSlot_booked_eq]
    by_cases hc : (d, t) ∈ s.booked <;> simp [hc]
  generalize hs1 : addBookedSlot s d t = s1 at hmem ⊢
  refine ⟨?_, ?_, ?_, ?_⟩
  · simp [isSlotBooked, hmem]
  · simp [insertBookedSlot, hmem]
  · unfold addBookedSlot
    simp [insertBookedSlot, hmem]
  · unfold addBookedSlotResult
    simp [insertBookedSlot, hmem]

/-! ### C3: weekday slot enumeration -/

set_option maxHeartbeats 2000000 in
/-- C3: on a weekday, `GET /api/available-slots` generates exactly the slots
at 30-minute boundaries from 09:00 inclusive up to and excluding 18:00 (last
start 17:30, and no 18:00 slot); each slot has
`available = ¬isPast ∧ ¬isBooked` with `isPast` meaning slot start ≤ now,
and its reason follows the precedence past > booked > available (so the
09:00 slot is available exactly when it is neither past nor booked). -/
theorem availableSlots_weekday_spec (store : SlotStore) (date : CivDate)
    (now : Nat) (h0 : jsGetDay date ≠ 0) (h6 : jsGetDay date ≠ 6) :
    (availableSlotsEndpoint store date now).slots =
        slotGrid.map (fun p => buildSlot store date now p.1 p.2) ∧
    (availableSlotsEndpoint store date now).slots.map TimeSlot.time =
        slotGridTimes ∧
    (∀ st ∈ (availableSlotsEndpoint store date now).slots,
        st.time ≠ timeStr 18 0) ∧
    (∀ h m : Nat, ((h, m) ∈ slotGrid ↔ (9 ≤ h ∧ h < 18 ∧ (m = 0 ∨ m = 30)))) ∧
    (∀ h m : Nat, ((buildSlot store date now h m).available = true ↔
        (¬ slotInstant date h m ≤ now ∧
          isSlotBooked store date (timeStr h m) = false))) ∧
    (∀ h m : Nat, (buildSlot store date now h m).reason =
        if slotInstant date h m ≤ now then reasonPast
        else if isSlotBooked store date (timeStr h m) = true then reasonBooked
        else reasonAvailable) := by
  have hslots : (availableSlotsEndpoint store date now).slots =
      slotGrid.map (fun p => buildSlot store date now p.1 p.2) := by
    unfold availableSlotsEndpoint
    simp [h0, h6]
  have hmap : (availableSlotsEndpoint store date now).slots.map TimeSlot.time =
      slotGridTimes := by
    rw [hslots, List.map_map]
    rfl
  refine ⟨hslots, hmap, ?_, ?_, ?_, ?_⟩
  · intro st hst heq
    have h2 : st.time ∈ slotGridTimes := by
      rw [← hmap]
      exact List.mem_map_of_mem _ hst
    rw [heq] at h2
    exact absurd h2 (by decide)
  · have hg : slotGrid =
        [(9, 0), (9, 30), (10, 0), (10, 30), (11, 0), (11, 30), (12, 0),
         (12, 30), (13, 0), (13, 30), (14, 0), (14, 30), (15, 0), (15, 30),
         (16, 0), (16, 30), (17, 0), (17, 30)] := by rfl
    intro h m
    rw [hg]
    simp only [List.mem_cons, List.not_mem_nil, or_false, Prod.mk.injEq]
    omega
  · intro h m
    simp [buildSlot, Bool.and_eq_true, Bool.not_eq_true']
  · intro h m
    by_cases hp : slotInstant date h m ≤ now <;>
      by_cases hb : isSlotBooked store date (timeStr h m) = true <;>
        simp [buildSlot, hp, hb]

/-- Witness for C3 at a concrete input: the slot times generated for Monday
2025-09-08 are exactly 09:00 … 17:30. -/
theorem availableSlots_weekday_spec_witness :
    (availableSlotsEndpoint emptyStore dMon 0).slots.map TimeSlot.time =
      slotGridTimes :=
  (availableSlots_weekday_spec emptyStore dMon 0 (by decide) (by decide)).2.1

/-! ### C4: weekend slot enumeration -/

/-- C4: for a date falling on Saturday (`getDay = 6`) or Sunday
(`getDay = 0`), `GET /api/available-slots` returns an empty slot list and an
overall `available = false`. -/
theorem availableSlots_weekend (store : SlotStore) (date : CivDate) (now : Nat)
    (h : jsGetDay date = 0 ∨ jsGetDay date = 6) :
    (availableSlotsEndpoint store date now).slots = [] ∧
    (availableSlotsEndpoint store date now).available = some false := by
  unfold availableSlotsEndpoint
  rcases h with h | h <;> simp [h]

/-- Witness for C4 at a concrete input: Saturday 2025-09-06. -/
theorem availableSlots_weekend_witness :
    (availableSlotsEndpoint emptyStore dSat 0).slots = [] ∧
    (availableSlotsEndpoint emptyStore dSat 0).available = some false :=
  availableSlots_weekend emptyStore dSat 0 (Or.inr (by decide))

/-! ### C5: booking orchestrator, no partial side effects -/

/-- C5: a booking request rejected by the weekday or business-hours
validation leaves the slot store unchanged and never reaches the external
meeting-creation call; a meeting-creation failure is reported with 500 and
also leaves the store unchanged; the store changes only when meeting
creation succeeded, the slot then being reserved via `addBookedSlot`. -/
theorem schedule_noPartialEffects (store : SlotStore) (fp : Bool)
    (date : CivDate) (time : JStr) (outcome : MeetingOutcome) :
    (((scheduleDiscoveryCall store fp date time outcome).1 =
          ScheduleResponse.notAWeekday ∨
      (scheduleDiscoveryCall store fp date time outcome).1 =
          ScheduleResponse.outsideBusinessHours) →
      ((scheduleDiscoveryCall store fp date time outcome).2.1 = store ∧
       (scheduleDiscoveryCall store fp date time outcome).2.2 = false)) ∧
    ((scheduleDiscoveryCall store fp date time outcome).1 =
        ScheduleResponse.meetingCreationFailed →
      ((scheduleDiscoveryCall store fp date time outcome).1.httpStatus = 500 ∧
       (scheduleDiscoveryCall store fp date time outcome).2.1 = store)) ∧
    ((scheduleDiscoveryCall store fp date time outcome).2.1 ≠ store →
      (outcome = MeetingOutcome.success ∧
       (scheduleDiscoveryCall store fp date time outcome).1 =
          ScheduleResponse.booked ∧
       (scheduleDiscoveryCall store fp date time outcome).2.1 =
          addBookedSlot store date (convertTo24Hour time))) := by
  unfold scheduleDiscoveryCall
  cases fp <;> cases outcome <;>
    simp only [Bool.not_true, Bool.not_false, if_true, if_false] <;>
      (try split_ifs) <;> simp [ScheduleResponse.httpStatus]

/-- Witness for C5 at a concrete input: a Saturday request is rejected with
the store unchanged and no meeting-creation attempt. -/
theorem schedule_noPartialEffects_witness :
    (scheduleDiscoveryCall emptyStore true dSat tTen
        MeetingOutcome.success).2.1 = emptyStore ∧
    (scheduleDiscoveryCall emptyStore true dSat tTen
        MeetingOutcome.success).2.2 = false :=
  (schedule_noPartialEffects emptyStore true dSat tTen
      MeetingOutcome.success).1 (Or.inl (by decide))

/-! ### C6: already-booked slot at the booking endpoint -/

/-- C6 counterexample: with the 10:00 slot of Monday 2025-12-01 already
booked, a well-formed booking request for exactly that slot is not rejected
with 400 before meeting creation: the external meeting creation is attempted
and the request succeeds with HTTP 200. -/
theorem schedule_bookedSlot_not_rejected :
    isSlotBooked storeBookedMonDec dMonDec (convertTo24Hour tTen) = true ∧
    (scheduleDiscoveryCall storeBookedMonDec true dMonDec tTen
        MeetingOutcome.success).2.2 = true ∧
    (scheduleDiscoveryCall storeBookedMonDec true dMonDec tTen
        MeetingOutcome.success).1.httpStatus = 200 := by decide

/-- C6 amended: `POST /api/schedule-discovery-call` never consults the slot
store during validation: a request whose (date, normalized time) slot is
already booked but which passes the field, weekday and business-hours checks
proceeds to external meeting creation; on success it returns 200 `booked`,
the duplicate reserve being swallowed so the store is unchanged. -/
theorem schedule_bookedSlot_proceeds (store : SlotStore) (date : CivDate)
    (time : JStr) (outcome : MeetingOutcome) (h m : Nat)
    (hbk : isSlotBooked store date (convertTo24Hour time) = true)
    (h0 : jsGetDay date ≠ 0) (h6 : jsGetDay date ≠ 6)
    (hp : parseHM (convertTo24Hour time) = some (h, m))
    (h9 : 9 ≤ h) (h18 : h < 18) :
    (scheduleDiscoveryCall store true date time outcome).2.2 = true ∧
    (scheduleDiscoveryCall store true date time outcome).2.1 = store ∧
    (outcome = MeetingOutcome.success →
      ((scheduleDiscoveryCall store true date time outcome).1 =
          ScheduleResponse.booked ∧
       (scheduleDiscoveryCall store true date time outcome).1.httpStatus =
          200)) := by
  have hmem : (date, convertTo24Hour time) ∈ store.booked := by
    simpa [isSlotBooked] using hbk
  have hadd : addBookedSlot store date (convertTo24Hour time) = store := by
    unfold addBookedSlot insertBookedSlot
    simp [hmem]
  have hA : ¬ h < 9 := by omega
  have hB : ¬ 18 ≤ h := by omega
  unfold scheduleDiscoveryCall
  cases outcome <;> simp [h0, h6, hp, hA, hB, hadd, ScheduleResponse.httpStatus]

/-- Witness for the amended C6 at a concrete input. -/
theorem schedule_bookedSlot_proceeds_witness :
    (scheduleDiscoveryCall storeBookedMonDec true dMonDec tTen
        MeetingOutcome.success).2.1 = storeBookedMonDec :=
  (schedule_bookedSlot_proceeds storeBookedMonDec dMonDec tTen
      MeetingOutcome.success 10 0 (by decide) (by decide) (by decide)
      (by decide) (by decide) (by decide)).2.1

/-! ### C7: time-normalizer round trip -/

/-- C7: for every valid time (hour < 24, minute < 60), the normalizer maps
the 24-hour rendering `HH:MM` to itself and maps the equivalent 12-hour
rendering `H:MM AM|PM` (12 AM ↦ hour 00, PM adds 12 except for hour 12) to
the same `HH:MM` string. -/
theorem convertTo24Hour_roundTrip : ∀ h : Nat, h < 24 → ∀ m : Nat, m < 60 →
    convertTo24Hour (timeStr h m) = timeStr h m ∧
    convertTo24Hour (to12Str h m) = timeStr h m := by decide

/-- Witness for C7 at a concrete input: both `14:05` and `2:05 PM` normalize
to `14:05`. -/
theorem convertTo24Hour_roundTrip_witness :
    convertTo24Hour (timeStr 14 5) = timeStr 14 5 ∧
    convertTo24Hour (to12Str 14 5) = timeStr 14 5 :=
  convertTo24Hour_roundTrip 14 (by decide) 5 (by decide)

/-! ### C8: uniqueness invariant -/

theorem atMostOne_runOps {s : SlotStore} (h : ∀ k, s.booked.count k ≤ 1) :
    ∀ ops : List SlotOp, ∀ k, (runOps s ops).booked.count k ≤ 1 := by
  intro ops
  induction ops generalizing s with
  | nil => exact h
  | cons op rest ih =>
    cases op with
    | reserve d t =>
      exact ih (count_le_one_addBookedSlot d t h)
    | release d t =>
      exact ih (fun k => Nat.le_trans (count_removeFirst_le (d, t) k s.booked) (h k))

/-- C8: in every slot-store state reachable from the empty store by any
sequence of reserve (`addBookedSlot`) and release (`removeBookedSlot`)
operations, at most one record exists per (date, time) pair. -/
theorem bookedSlots_unique (ops : List SlotOp) (k : CivDate × JStr) :
    (runOps emptyStore ops).booked.count k ≤ 1 := by
  exact atMostOne_runOps (by intro k; simp [emptyStore]) ops k

/-! ### C9: concurrent reserves of the same slot -/

/-- C9: the code violates at-most-one-winner observability. Two concurrent
reserve calls for the same slot (Tuesday 2025-09-09 at 10:00) serialize, via
the atomic unique-index `insertOne`, into one of the two sequential orders —
which coincide here, the calls being identical. The loser's insert is
rejected by the unique index with a duplicate-key error, but that error is
caught inside `addBookedSlot`, so both calls resolve with no error and
neither caller ever observes `SlotAlreadyBooked`. -/
theorem reserve_race_no_observable_loser :
    (addBookedSlotResult emptyStore dTue tTen).2 = none ∧
    (addBookedSlotResult
        (addBookedSlotResult emptyStore dTue tTen).1 dTue tTen).2 = none ∧
    insertBookedSlot (addBookedSlotResult emptyStore dTue tTen).1 dTue tTen =
      Except.error SlotError.slotAlreadyBooked := by
  exact ⟨rfl, rfl, rfl⟩

/-! ### C10: frame property -/

/-- C10: reserving or releasing a slot leaves the booked status of every
other (date, time) pair unchanged. -/
theorem slotStore_frame (s : SlotStore) (d : CivDate) (t : JStr)
    (d' : CivDate) (t' : JStr) (h : (d', t') ≠ (d, t)) :
    isSlotBooked (addBookedSlot s d t) d' t' = isSlotBooked s d' t' ∧
    isSlotBooked (removeBookedSlot s d t) d' t' = isSlotBooked s d' t' := by
  constructor
  · unfold isSlotBooked
    rw [addBookedSlot_booked_eq]
    by_cases hc : (d, t) ∈ s.booked
    · simp [hc]
    · simp [hc, h]
  · unfold isSlotBooked removeBookedSlot
    simp [mem_removeFirst_of_ne h]

/-- Witness for C10 at a concrete input: booking Tuesday 10:00 does not
change the status of Monday 10:00, nor does releasing it. -/
theorem slotStore_frame_witness :
    isSlotBooked (addBookedSlot emptyStore dTue tTen) dMon tTen =
        isSlotBooked emptyStore dMon tTen ∧
    isSlotBooked (removeBookedSlot emptyStore dTue tTen) dMon tTen =
        isSlotBooked emptyStore dMon tTen :=
  slotStore_frame emptyStore dTue tTen dMon tTen (by decide)

end Thrive
